import Mathlib

/-!
Verification development for the crypto market analysis application
(`app.py`): a Streamlit front end that fetches CoinMarketCap market data,
fetches the Fear & Greed sentiment index, runs a four-task CrewAI pipeline,
and composes a final report.  The Python source is shallowly embedded:
pure string/metric computations become Lean functions, network calls become
explicit outcome parameters, Python exceptions become `Except`.
-/

set_option maxRecDepth 16384

namespace CryptoApp

/-- Python-style JSON values, as produced by `response.json()`. -/
inductive Json where
  | null
  | bool (b : Bool)
  | num (q : ℚ)
  | str (s : String)
  | arr (xs : List Json)
  | obj (kvs : List (String × Json))

/-- Python exceptions that the embedded code can raise. -/
inductive PyExn where
  | nameError (n : String)
  | typeError
  | keyError
  | indexError
  | attributeError
  | valueError
  | requestError
  | jsonDecodeError
deriving DecidableEq, Repr

/-- Association-list lookup (Python dict lookup by string key; first match). -/
def assocLookup (kvs : List (String × Json)) (k : String) : Option Json :=
  match kvs with
  | [] => none
  | (k', v) :: rest => if k' = k then some v else assocLookup rest k

/-- Lookup of a string key in a JSON object; `none` for missing keys or
non-objects (callers model the exact Python behaviour on non-objects). -/
def jsonLookup (j : Json) (k : String) : Option Json :=
  match j with
  | .obj kvs => assocLookup kvs k
  | _ => none

/-- Python truthiness of a JSON value (`if x:`). -/
def Json.truthy : Json → Bool
  | .null => false
  | .bool b => b
  | .num q => q != 0
  | .str s => !(s.data.isEmpty)
  | .arr xs => !xs.isEmpty
  | .obj kvs => !kvs.isEmpty

/-- Is this JSON value a list? -/
def Json.isArr : Json → Bool
  | .arr _ => true
  | _ => false

/-- Is this JSON value a dict? -/
def Json.isObj : Json → Bool
  | .obj _ => true
  | _ => false

/-- `sub` occurs verbatim inside `s` (contiguous substring). -/
def StrContains (s sub : String) : Prop := sub.data <:+: s.data

instance (s sub : String) : Decidable (StrContains s sub) := by
  unfold StrContains
  exact inferInstance

/-! ## Network and interpreter-level primitives

Each HTTP call in the source (`requests.get` plus `raise_for_status` plus
`.json()`) is modelled by an explicit outcome parameter. -/

/-- Outcome of one `requests.get(...)`/`raise_for_status()`/`.json()` chain. -/
inductive HttpOutcome where
  | transportError          -- `requests.get` itself raises
  | httpError               -- non-2xx status: `raise_for_status()` raises
  | badJson                 -- `.json()` raises
  | ok (j : Json)           -- 2xx with parsed JSON body

/-- The JSON body of a request, or the exception the chain raises. -/
def requestsGetJson (net : HttpOutcome) : Except PyExn Json :=
  match net with
  | .transportError => .error .requestError
  | .httpError => .error .requestError
  | .badJson => .error .jsonDecodeError
  | .ok j => .ok j

/-- Python `k in j` for a parsed-JSON value: dict key membership, list
membership (only string elements can equal the string key), substring test
for strings; iteration over other values raises `TypeError`. -/
def pyContains (j : Json) (k : String) : Except PyExn Bool :=
  match j with
  | .obj kvs => .ok (kvs.any (fun p => p.1 = k))
  | .arr xs => .ok (xs.any (fun x => match x with | .str s => s = k | _ => false))
  | .str s => .ok (decide (StrContains s k))
  | _ => .error .typeError

/-- Python `j[k]` with a string key: dict lookup (`KeyError` when absent);
strings/lists need integer indices and everything else is not
subscriptable, so those raise `TypeError`. -/
def pySubscriptS (j : Json) (k : String) : Except PyExn Json :=
  match j with
  | .obj kvs =>
    match assocLookup kvs k with
    | some v => .ok v
    | none => .error .keyError
  | _ => .error .typeError

/-- Python `j[0]`: first element of a list, first character of a string
(as a one-character string), `KeyError` for a string-keyed dict,
`TypeError` for non-subscriptable values. -/
def pyIndex0 (j : Json) : Except PyExn Json :=
  match j with
  | .arr (x :: _) => .ok x
  | .arr [] => .error .indexError
  | .str s =>
    match s.data with
    | c :: _ => .ok (.str (String.mk [c]))
    | [] => .error .indexError
  | .obj _ => .error .keyError
  | _ => .error .typeError

/-- Python `j.get(k)`: `None`-or-value on dicts, `AttributeError` on
anything without a `.get` method. -/
def pyGetMethod (j : Json) (k : String) : Except PyExn (Option Json) :=
  match j with
  | .obj kvs => .ok (assocLookup kvs k)
  | _ => .error .attributeError

/-- Python `j.get(k, default)`. -/
def pyGetMethodD (j : Json) (k : String) (dflt : Json) : Except PyExn Json :=
  match j with
  | .obj kvs => .ok ((assocLookup kvs k).getD dflt)
  | _ => .error .attributeError

/-! ## Environment setup (app.py lines 19–31) -/

/-- The environment variables the module reads at import time.  The module
aborts at import when any of them is unset, so all three are present in any
run that reaches the UI. -/
structure Env where
  coinmarketcap_api_key : String
  gemini_api_key : String
  model : String

/-- Name lookup in the module's global scope, for the configuration names.
`COINMARKETCAP_API` (the misspelling at line 51) is not among the defined
names, so looking it up raises `NameError`. -/
def lookupGlobal (env : Env) (n : String) : Except PyExn String :=
  if n = "COINMARKETCAP_API_KEY" then .ok env.coinmarketcap_api_key
  else if n = "GEMINI_API_KEY" then .ok env.gemini_api_key
  else if n = "MODEL" then .ok env.model
  else .error (.nameError n)

/-! ## Data fetching functions (app.py lines 36–96) -/

/-- The `params` dict of `fetch_market_data` (lines 44–50), verbatim. -/
def marketParams : List (String × String) :=
  [("start", "1"), ("limit", "20"), ("convert", "USD"),
   ("sort", "market_cap"), ("sort_dir", "desc")]

/-- Association lookup for string-valued parameter dicts. -/
def paramLookup (kvs : List (String × String)) (k : String) : Option String :=
  match kvs with
  | [] => none
  | (k', v) :: rest => if k' = k then some v else paramLookup rest k

/-- `fetch_market_data` (lines 36–58).  The `params` dict and the `headers`
dict are built *before* the `try:` block; the headers expression reads the
undefined global `COINMARKETCAP_API`, so the `NameError` it raises
propagates to the caller instead of being caught by the `except`.  Only the
request/JSON part (lines 53–55) sits inside the `try`, whose `except`
returns `{}`. -/
def fetch_market_data (env : Env) (net : HttpOutcome) : Except PyExn Json := do
  let _params := marketParams
  let key ← lookupGlobal env "COINMARKETCAP_API"
  let _headers := [("X-CMC_PRO_API_KEY", key)]
  match requestsGetJson net with
  | .ok j => pure j
  | .error _ => pure (Json.obj [])

/-- `fetch_live_sentiment_data` (lines 60–78).  The whole body sits inside
`try: ... except Exception: st.error(...); return {}`, so every raised
exception is converted to `{}`. -/
def fetch_live_sentiment_data (net : HttpOutcome) : Json :=
  match requestsGetJson net with
  | .error _ => Json.obj []
  | .ok data =>
    match pyContains data "data" with
    | .error _ => Json.obj []
    | .ok hasKey =>
      if hasKey then
        match pySubscriptS data "data" with
        | .error _ => Json.obj []
        | .ok d =>
          if d.truthy then
            match pyIndex0 d with
            | .ok x => x
            | .error _ => Json.obj []
          else Json.obj []
      else Json.obj []

/-- Python `str(x)` as used in the sentiment f-string.  Sentiment values and
classifications arrive as JSON strings; the rendering of non-string scalars
is a plain-text approximation (no claim depends on it). -/
def pyStr : Json → String
  | .null => "None"
  | .bool true => "True"
  | .bool false => "False"
  | .num q => toString q.num ++ (if q.den = 1 then "" else "/" ++ toString q.den)
  | .str s => s
  | .arr _ => "[...]"
  | .obj _ => "\x7b...\x7d"

/-- `generate_sentiment_analysis` (lines 80–96): pairs the fetched
sentiment record with a report string; an empty record yields the fixed
fallback text.  `.get` on a non-dict record would raise, hence `Except`. -/
def generate_sentiment_analysis (net : HttpOutcome) : Except PyExn (Json × String) := do
  let sentiment_data := fetch_live_sentiment_data net
  if sentiment_data.truthy then
    let v ← pyGetMethodD sentiment_data "value" (.str "N/A")
    let c ← pyGetMethodD sentiment_data "value_classification" (.str "Unknown")
    pure (sentiment_data,
      "The current Crypto Fear & Greed Index is **" ++ pyStr v ++ "** (" ++
        pyStr c ++ "). This reflects the overall market sentiment as of now.")
  else
    pure (sentiment_data, "Live sentiment data is currently unavailable.")

/-! ## Dynamic task descriptions (app.py lines 136–171)

`today` stands for `today_str = datetime.now().strftime("%B %d, %Y")`,
`timeframe`, `top_n` and `additional_note` for the sidebar inputs. -/

/-- Lines 142–149. -/
def market_analysis_description (today timeframe : String) (top_n : Nat) : String :=
  "**Report Date:** " ++ today ++
  "\n1. Analyze current market conditions and trends over the past " ++ timeframe ++
  ".\n2. Focus on the top " ++ toString top_n ++
  " cryptocurrencies by market cap.\n3. Identify key market drivers, catalysts, and risks.\n4. Evaluate overall market sentiment and momentum.\n5. Generate price predictions and risk assessments."

/-- Lines 150–157. -/
def technical_analysis_description (today timeframe : String) (top_n : Nat) : String :=
  "**Report Date:** " ++ today ++
  "\n1. Perform technical analysis on the top " ++ toString top_n ++
  " cryptocurrencies over the past " ++ timeframe ++
  ".\n2. Generate trading signals and identify chart patterns.\n3. Calculate key technical indicators (RSI, MACD, MA).\n4. Identify support and resistance levels.\n5. Provide probability-based trade recommendations."

/-- Lines 158–163. -/
def sentiment_task_description (today timeframe : String) : String :=
  "**Report Date:** " ++ today ++
  "\n1. Analyze the latest news and social media sentiment.\n2. Summarize market sentiment trends over the past " ++ timeframe ++
  ".\n3. Identify the impact of recent events on market sentiment."

/-- Lines 164–171, including the conditional `Note:` suffix appended when
`additional_note` is non-empty (Python truthiness of the text input). -/
def report_generation_description (today additional_note : String) : String :=
  let base :=
    "**Report Date:** " ++ today ++
    "\n1. Synthesize all previous analyses into a final, concise report.\n2. Create an executive summary with key findings and actionable recommendations.\n3. Highlight the most critical market insights from the data and analysis."
  if additional_note = "" then base
  else base ++ "\nNote: " ++ additional_note

/-! ## Agents and tasks (app.py lines 177–254) -/

/-- A CrewAI agent as constructed in the source: a role, a goal, a
backstory, and one `SerperDevTool(n_results=...)`; the LLM binding is the
module-wide `llm` and is left implicit. -/
structure Agent where
  role : String
  goal : String
  backstory : String
  serper_n_results : Nat
deriving DecidableEq, Repr

/-- Lines 177–187. -/
def market_researcher : Agent :=
  { role := "Senior Market Research Analyst"
    goal := "Analyze current market conditions, trends, and provide investment insights."
    backstory := "A seasoned analyst with deep knowledge of cryptocurrency markets. Expert in identifying trends and emerging opportunities through data-driven analysis."
    serper_n_results := 5 }

/-- Lines 189–199. -/
def technical_analyst : Agent :=
  { role := "Technical Analysis Specialist"
    goal := "Perform technical analysis and generate trading signals."
    backstory := "A quantitative analyst with expertise in technical indicators and chart patterns. Skilled in using RSI, MACD, and moving averages to provide actionable trade recommendations."
    serper_n_results := 5 }

/-- Lines 201–211. -/
def news_analyst : Agent :=
  { role := "Crypto News & Sentiment Analyst"
    goal := "Monitor news, social media, and overall market sentiment."
    backstory := "An expert in analyzing the impact of news and social media on crypto markets. Capable of identifying key events that drive market sentiment."
    serper_n_results := 5 }

/-- Lines 213–223. -/
def report_writer : Agent :=
  { role := "Financial Report Writer"
    goal := "Create comprehensive investment reports with actionable insights."
    backstory := "Experienced in crafting detailed financial reports and investment recommendations. Specializes in presenting complex analysis in a clear and concise manner."
    serper_n_results := 10 }

/-- A CrewAI task as constructed in the source. -/
structure Task where
  description : String
  expected_output : String
  agent : Agent
deriving DecidableEq, Repr

/-- Lines 226–230. -/
def market_analysis (today timeframe : String) (top_n : Nat) : Task :=
  { description := market_analysis_description today timeframe top_n
    expected_output := "A concise market analysis report summarizing current conditions, trends, price predictions, and risk factors."
    agent := market_researcher }

/-- Lines 231–235. -/
def technical_analysis (today timeframe : String) (top_n : Nat) : Task :=
  { description := technical_analysis_description today timeframe top_n
    expected_output := "A concise technical analysis report with key trading signals, support/resistance levels, and indicator summaries."
    agent := technical_analyst }

/-- Lines 236–240. -/
def sentiment_task (today timeframe : String) : Task :=
  { description := sentiment_task_description today timeframe
    expected_output := "A brief sentiment analysis summary including overall sentiment scores and key drivers."
    agent := news_analyst }

/-- Lines 241–248. -/
def report_generation (today additional_note : String) : Task :=
  { description := report_generation_description today additional_note
    expected_output := "A final executive report that includes an overview of the current market, key technical insights, sentiment analysis, and recommendations for top long and short-term investment opportunities."
    agent := report_writer }

/-- The ordered task list of `crypto_crew` (lines 250–254). -/
def crypto_crew_tasks (today timeframe : String) (top_n : Nat) (additional_note : String) : List Task :=
  [market_analysis today timeframe top_n,
   technical_analysis today timeframe top_n,
   sentiment_task today timeframe,
   report_generation today additional_note]

/-- The agent list of `crypto_crew` (line 251). -/
def crypto_crew_agents : List Agent :=
  [market_researcher, technical_analyst, news_analyst, report_writer]

/-! ## DataFrame rows and derived metrics (app.py lines 269–288)

Numbers are modelled as exact rationals; the source works with Python
floats, but every metric claim is about the arithmetic shape of the
computation, not float rounding. -/

/-- One row of the DataFrame built at lines 269–276. -/
structure CoinRow where
  name : Json
  symbol : Json
  price : ℚ
  market_cap : ℚ
  volume_24h : ℚ
  change_24h : ℚ

/-- Numeric coercion for the price/cap/volume/change columns.  The
market-data contract (§6) makes these floats; pandas treats booleans as
numbers too, and aggregating a non-numeric column is modelled as the
`TypeError` it eventually produces. -/
def Json.asNum : Json → Except PyExn ℚ
  | .num q => .ok q
  | .bool b => .ok (if b then 1 else 0)
  | _ => .error .typeError

/-- The dict-comprehension body of lines 270–275 for one `coin` record. -/
def coinRowOfJson (coin : Json) : Except PyExn CoinRow := do
  let name ← pySubscriptS coin "name"
  let symbol ← pySubscriptS coin "symbol"
  let quote ← pySubscriptS coin "quote"
  let usd ← pySubscriptS quote "USD"
  let price ← Json.asNum (← pySubscriptS usd "price")
  let market_cap ← Json.asNum (← pySubscriptS usd "market_cap")
  let volume_24h ← Json.asNum (← pySubscriptS usd "volume_24h")
  let change_24h ← Json.asNum (← pySubscriptS usd "percent_change_24h")
  pure { name := name, symbol := symbol, price := price, market_cap := market_cap,
         volume_24h := volume_24h, change_24h := change_24h }

/-- `pd.DataFrame([... for coin in market_data['data']])` (lines 269–276):
iterating a non-list raises; each element goes through `coinRowOfJson`.
This code is *not* inside any `try`, so a raised exception escapes the
handler. -/
def buildDf (d : Json) : Except PyExn (List CoinRow) :=
  match d with
  | .arr coins => coins.mapM coinRowOfJson
  | _ => .error .typeError

/-- Line 286: `df['market_cap'].sum() / 1e9`. -/
def total_market_cap (df : List CoinRow) : ℚ :=
  (df.map CoinRow.market_cap).sum / 1000000000

/-- Line 287: `df['volume_24h'].sum() / 1e9`. -/
def total_volume (df : List CoinRow) : ℚ :=
  (df.map CoinRow.volume_24h).sum / 1000000000

/-- Line 288: `df['change_24h'].mean()`. -/
def avg_change (df : List CoinRow) : ℚ :=
  (df.map CoinRow.change_24h).sum / (df.length : ℚ)

/-! ## Report composition (app.py lines 289–302) -/

/-- `round(q)` to the nearest integer, halves away from the floor:
`⌊q + 1/2⌋` computed on the reduced fraction. -/
def ratRound (q : ℚ) : ℤ :=
  Int.fdiv (2 * q.num + (q.den : ℤ)) (2 * (q.den : ℤ))

/-- Python's `f"{x:.2f}"` fixed-point rendering with two decimals (float
round-half-even differs from this exact rounding only at exact halves,
which no claim exercises). -/
def fmt2 (q : ℚ) : String :=
  let c : ℤ := ratRound (q * 100)
  let sign := if c < 0 then "-" else ""
  let m : ℕ := c.natAbs
  let frac := m % 100
  sign ++ toString (m / 100) ++ "." ++
    (if frac < 10 then "0" ++ toString frac else toString frac)

/-- `data_summary` (lines 289–294). -/
def data_summary (tmc tv ac : ℚ) (today : String) : String :=
  "**Market Summary (as of " ++ today ++ "):**\n\n- **Total Market Cap:** $" ++
  fmt2 tmc ++ "B\n- **24h Volume:** $" ++ fmt2 tv ++
  "B\n- **Average 24h Change:** " ++ fmt2 ac ++ "%\n\n"

/-- The fixed recommendation footer of the final report (line 301). -/
def recommendation_footer : String :=
  "*Recommendation:* Monitor market drivers and adjust positions as needed for both long and short-term investments."

/-- `final_report` (lines 296–302): executive-summary header, quantitative
`data_summary`, the orchestrator's text, and the fixed footer. -/
def final_report (ai_report : String) (tmc tv ac : ℚ) (today : String) : String :=
  "### Executive Summary for " ++ today ++ "\n\n" ++
  data_summary tmc tv ac today ++
  "**Key AI Insights:**\n" ++ ai_report ++ "\n\n" ++
  recommendation_footer

/-! ## The Generate Analysis button handler (app.py lines 261–302) -/

/-- How one press of the button ends: an uncaught exception, an
`st.error` + `st.stop` abort, or a fully rendered run carrying the final
report text. -/
inductive HandlerOutcome where
  | uncaught (e : PyExn)
  | stoppedWithError (msg : String)
  | rendered (finalReport : String)
deriving DecidableEq, Repr

/-- Did the handler reach the full rendering stage? -/
def HandlerOutcome.isRendered : HandlerOutcome → Bool
  | .rendered _ => true
  | _ => false

/-- The handler body from line 264 on, given the already-fetched
`market_data` and the outcome `kick` of `crypto_crew.kickoff()` (`.error`
is the exception message the `except` at line 281 stringifies).
`additional_note` is in scope in the source but unused after line 171. -/
def handleMarketData (market_data : Json) (kick : Except String String)
    (additional_note today : String) : HandlerOutcome :=
  let _ := additional_note
  match pyGetMethod market_data "data" with
  | .error e => .uncaught e
  | .ok none => .stoppedWithError "No market data returned from API."
  | .ok (some d) =>
    if d.truthy = false then .stoppedWithError "No market data returned from API."
    else
      match buildDf d with
      | .error e => .uncaught e
      | .ok df =>
        match kick with
        | .error emsg => .stoppedWithError ("Error during AI analysis: " ++ emsg)
        | .ok ai_report =>
          .rendered (final_report ai_report (total_market_cap df)
            (total_volume df) (avg_change df) today)

/-- The whole button handler: line 263 fetches the market data (an
exception there is uncaught), then the rest of the handler runs. -/
def generateAnalysis (env : Env) (net : HttpOutcome) (kick : Except String String)
    (additional_note today : String) : HandlerOutcome :=
  match fetch_market_data env net with
  | .error e => .uncaught e
  | .ok md => handleMarketData md kick additional_note today

/-! ## Sentiment tab rendering (app.py lines 356–382) -/

/-- Streamlit elements emitted by the sentiment tab. -/
inductive UIElement where
  | subheader (s : String)
  | gauge (value : ℚ)
  | errorBox (s : String)
  | markdown (s : String)
deriving DecidableEq, Repr

/-- `float(x)` as applied to the gauge value: numbers pass through,
booleans coerce, strings would need parsing (the Fear & Greed API returns
the value as a numeric string); a string that is not a simple decimal
literal raises `ValueError`.  Parsing handles `-`, digits and one `.`. -/
def parseDigits : List Char → Option ℕ
  | [] => none
  | cs =>
    cs.foldl (fun acc c =>
      acc.bind fun a => if c.isDigit then some (a * 10 + (c.toNat - 48)) else none)
      (some 0)

/-- Decimal-literal parsing for `float(<string>)`. -/
def parseDecQ (s : String) : Option ℚ :=
  let (neg, cs) :=
    match s.data with
    | '-' :: rest => (true, rest)
    | cs => (false, cs)
  let intPart := cs.takeWhile (fun c => c ≠ '.')
  let restPart := cs.dropWhile (fun c => c ≠ '.')
  let val : Option ℚ :=
    match restPart with
    | [] => (parseDigits intPart).map (fun n => (n : ℚ))
    | _ :: fracPart =>
      match parseDigits intPart, parseDigits fracPart with
      | some i, some f => some ((i : ℚ) + (f : ℚ) / ((10 : ℚ) ^ fracPart.length))
      | _, _ => none
  val.map (fun q => if neg then -q else q)

/-- `float(x)` for a JSON value. -/
def pyFloat (v : Json) : Except PyExn ℚ :=
  match v with
  | .num q => .ok q
  | .bool b => .ok (if b then 1 else 0)
  | .str s =>
    match parseDecQ s with
    | some q => .ok q
    | none => .error .valueError
  | _ => .error .typeError

/-- `str(e)` for a caught exception, as interpolated into error boxes; the
exact Python message text is interpreter-specific, modelled here by the
exception's identity. -/
def pyExnStr : PyExn → String
  | .nameError n => "name '" ++ n ++ "' is not defined"
  | .typeError => "TypeError"
  | .keyError => "KeyError"
  | .indexError => "IndexError"
  | .attributeError => "AttributeError"
  | .valueError => "ValueError"
  | .requestError => "RequestException"
  | .jsonDecodeError => "JSONDecodeError"

/-- The sentiment tab (lines 356–382): subheader, then
`generate_sentiment_analysis()`; when the sentiment record is truthy a
gauge is drawn inside a `try` whose `except` shows an error box; then the
report heading and the report text.  An exception out of
`generate_sentiment_analysis` itself escapes uncaught. -/
def tab3Render (net : HttpOutcome) : Except PyExn (List UIElement) := do
  let sr ← generate_sentiment_analysis net
  let sentiment_data := sr.1
  let sentiment_report := sr.2
  let gaugeElems : List UIElement ←
    if sentiment_data.truthy then
      match (do pyFloat (← pyGetMethodD sentiment_data "value" (.num 0)) : Except PyExn ℚ) with
      | .ok q => pure [UIElement.gauge q]
      | .error e => pure [UIElement.errorBox ("Error displaying gauge chart: " ++ pyExnStr e)]
    else pure []
  pure ([UIElement.subheader "Market Sentiment Analysis"] ++ gaugeElems ++
    [UIElement.markdown "### Sentiment Analysis Report",
     UIElement.markdown sentiment_report])

/-! ## The Crew orchestrator

Modelled from the spec: the `Crew.kickoff` execution engine lives in the
external `crewai` package, not in this repository's source; §4.4 of the
spec fixes its algorithm — run the tasks strictly in declared order, give
each task the accumulated outputs of the strictly earlier tasks, append
each success to the context, and abort the whole run on the first
generation failure, discarding partial results. -/

/-- Modelled from the spec: run status of a pipeline run (§3, §4.4). -/
inductive RunStatus where
  | pending
  | running
  | completed
  | failed
deriving DecidableEq, Repr

/-- Modelled from the spec: the observable trace of one kickoff —
the prompt context handed to each task that was executed, the outputs of
the tasks that succeeded, and whether a generation failure aborted the
run. -/
structure CrewTrace where
  contexts : List (List String)
  outputs : List String
  failed : Bool
deriving DecidableEq, Repr

/-- Modelled from the spec (§4.4): execute the remaining tasks in order,
threading the accumulated context `acc`; `llm` is the (non-deterministic,
possibly failing) language-model call for one task given its prior
context. -/
def crewRunFrom (llm : Task → List String → Except String String) :
    List Task → List String → CrewTrace
  | [], _ => { contexts := [], outputs := [], failed := false }
  | t :: rest, acc =>
    match llm t acc with
    | .error _ => { contexts := [acc], outputs := [], failed := true }
    | .ok out =>
      let tr := crewRunFrom llm rest (acc ++ [out])
      { contexts := acc :: tr.contexts, outputs := out :: tr.outputs, failed := tr.failed }

/-- Modelled from the spec: final status of a kickoff. -/
def crewStatus (llm : Task → List String → Except String String) (tasks : List Task) : RunStatus :=
  if (crewRunFrom llm tasks []).failed then .failed else .completed

/-- Modelled from the spec (§4.4 step 3): the aggregate result is the final
task's output on success, and nothing on failure. -/
def crewResult (llm : Task → List String → Except String String) (tasks : List Task) : Option String :=
  let tr := crewRunFrom llm tasks []
  if tr.failed then none else tr.outputs.getLast?

/-! ## Concrete fixtures used by witnesses and counterexamples -/

/-- A quote object for one coin of the example market response. -/
def coinJson (name symbol : String) (price cap vol chg : ℚ) : Json :=
  .obj [("name", .str name), ("symbol", .str symbol),
        ("quote", .obj [("USD", .obj [("price", .num price), ("market_cap", .num cap),
                                      ("volume_24h", .num vol),
                                      ("percent_change_24h", .num chg)])])]

/-- A well-formed two-coin market response. -/
def exampleMarketJson : Json :=
  .obj [("status", .obj []), ("data", .arr
    [coinJson "Bitcoin" "BTC" 50000 100 10 2,
     coinJson "Ether" "ETH" 3000 50 20 (-4)])]

/-- The rows `buildDf` extracts from `exampleMarketJson`'s data list. -/
def twoCoinRows : List CoinRow :=
  [{ name := .str "Bitcoin", symbol := .str "BTC", price := 50000,
     market_cap := 100, volume_24h := 10, change_24h := 2 },
   { name := .str "Ether", symbol := .str "ETH", price := 3000,
     market_cap := 50, volume_24h := 20, change_24h := -4 }]

/-- A concrete task list instantiated at a fixed date and parameters. -/
def tasks4 : List Task := crypto_crew_tasks "March 04, 2026" "24H" 10 ""

/-- A language-model behaviour that succeeds on every task. -/
def llmAllOk : Task → List String → Except String String :=
  fun t ctx => .ok (t.agent.role ++ " output " ++ toString ctx.length)

/-- A language-model behaviour that fails exactly on the sentiment task
(the third task of the pipeline) and answers "ok" elsewhere. -/
def llmFailSentiment : Task → List String → Except String String :=
  fun t _ => if t.agent.role = "Crypto News & Sentiment Analyst" then .error "boom" else .ok "ok"

/-! ## Helper lemmas -/

theorem isInfix_refl_append {α} (sub r : List α) : sub <:+: sub ++ r :=
  ⟨[], r, by simp⟩

theorem isInfix_cons_append {α} (l : List α) {sub rest : List α}
    (h : sub <:+: rest) : sub <:+: l ++ rest := by
  obtain ⟨s, t, hst⟩ := h
  exact ⟨l ++ s, t, by simp [hst]⟩

theorem strContains_parts (p sub q : String) : StrContains (p ++ sub ++ q) sub :=
  ⟨p.data, q.data, by simp [String.data_append]⟩

theorem isInfix_self {α} (sub : List α) : sub <:+: sub :=
  ⟨[], [], by simp⟩

/-! ## C1 — fetch_market_data and the undefined COINMARKETCAP_API name -/

/-- C1 counterexample.  The claim says every invocation of
`fetch_market_data` returns `{}` (the `except` catching the `NameError`)
and that the handler therefore always takes the `'No market data returned'`
abort branch.  At a concrete invocation the function instead propagates the
`NameError` (the `headers` line sits *before* the `try`), so it does not
return `{}` and the handler does not reach that branch. -/
theorem C1_counterexample :
    fetch_market_data ⟨"k", "g", "m"⟩ HttpOutcome.transportError ≠ Except.ok (Json.obj [])
    ∧ generateAnalysis ⟨"k", "g", "m"⟩ HttpOutcome.transportError (Except.ok "AI") "" "March 04, 2026"
        ≠ HandlerOutcome.stoppedWithError "No market data returned from API." := by
  have hf : fetch_market_data ⟨"k", "g", "m"⟩ HttpOutcome.transportError
      = Except.error (PyExn.nameError "COINMARKETCAP_API") := rfl
  constructor
  · rw [hf]; simp
  · have hg : generateAnalysis ⟨"k", "g", "m"⟩ HttpOutcome.transportError (Except.ok "AI") "" "March 04, 2026"
        = HandlerOutcome.uncaught (PyExn.nameError "COINMARKETCAP_API") := rfl
    rw [hg]; simp

/-- C1 amended: for every invocation, `fetch_market_data` raises
`NameError('COINMARKETCAP_API')` before any request is sent — the
`headers` dict at line 51 is built *outside* the `try`, so the blanket
`except` never runs and the function never returns; consequently the
button handler aborts with this uncaught exception on every run, and the
`'No market data returned'` branch is never taken. -/
theorem C1_amended (env : Env) (net : HttpOutcome) (kick : Except String String)
    (note today : String) :
    fetch_market_data env net = Except.error (PyExn.nameError "COINMARKETCAP_API")
    ∧ generateAnalysis env net kick note today
        = HandlerOutcome.uncaught (PyExn.nameError "COINMARKETCAP_API") := by
  have hl : lookupGlobal env "COINMARKETCAP_API"
      = Except.error (PyExn.nameError "COINMARKETCAP_API") := by
    unfold lookupGlobal
    rw [if_neg (by decide), if_neg (by decide), if_neg (by decide)]
  have hf : fetch_market_data env net = Except.error (PyExn.nameError "COINMARKETCAP_API") := by
    unfold fetch_market_data
    rw [hl]
    rfl
  exact ⟨hf, by unfold generateAnalysis; rw [hf]⟩

/-! ## C2 — shape and contents of the four task descriptions -/

/-- C2 counterexample.  The claim says all 4 task descriptions contain the
date, the timeframe and the coin count verbatim; with date
"March 04, 2026", timeframe "90D" and coin count 17, the sentiment task is
one of the 4 constructed tasks and its description does not contain "17". -/
theorem C2_counterexample :
    sentiment_task "March 04, 2026" "90D" ∈ crypto_crew_tasks "March 04, 2026" "90D" 17 ""
    ∧ ¬ StrContains (sentiment_task "March 04, 2026" "90D").description (toString 17) :=
  ⟨by simp [crypto_crew_tasks], by decide⟩

/-- C2 amended: every valid parameter set yields exactly 4 Tasks and every
description contains the current date; the market-analysis and
technical-analysis descriptions additionally contain the timeframe and the
coin count verbatim; the sentiment description contains the timeframe but
not (in general) the coin count; the report-generation description
contains neither (beyond coincidental overlap). -/
theorem C2_amended (today tf : String) (n : Nat) (note : String) :
    (crypto_crew_tasks today tf n note).length = 4
    ∧ StrContains (market_analysis today tf n).description today
    ∧ StrContains (market_analysis today tf n).description tf
    ∧ StrContains (market_analysis today tf n).description (toString n)
    ∧ StrContains (technical_analysis today tf n).description today
    ∧ StrContains (technical_analysis today tf n).description tf
    ∧ StrContains (technical_analysis today tf n).description (toString n)
    ∧ StrContains (sentiment_task today tf).description today
    ∧ StrContains (sentiment_task today tf).description tf
    ∧ StrContains (report_generation today note).description today := by
  refine ⟨rfl, ?_, ?_, ?_, ?_, ?_, ?_, ?_, ?_, ?_⟩
  · simp only [StrContains, market_analysis, market_analysis_description,
      String.data_append, List.append_assoc]
    exact isInfix_cons_append _ (isInfix_refl_append _ _)
  · simp only [StrContains, market_analysis, market_analysis_description,
      String.data_append, List.append_assoc]
    exact isInfix_cons_append _ (isInfix_cons_append _ (isInfix_cons_append _
      (isInfix_refl_append _ _)))
  · simp only [StrContains, market_analysis, market_analysis_description,
      String.data_append, List.append_assoc]
    exact isInfix_cons_append _ (isInfix_cons_append _ (isInfix_cons_append _
      (isInfix_cons_append _ (isInfix_cons_append _ (isInfix_refl_append _ _)))))
  · simp only [StrContains, technical_analysis, technical_analysis_description,
      String.data_append, List.append_assoc]
    exact isInfix_cons_append _ (isInfix_refl_append _ _)
  · simp only [StrContains, technical_analysis, technical_analysis_description,
      String.data_append, List.append_assoc]
    exact isInfix_cons_append _ (isInfix_cons_append _ (isInfix_cons_append _
      (isInfix_cons_append _ (isInfix_cons_append _ (isInfix_refl_append _ _)))))
  · simp only [StrContains, technical_analysis, technical_analysis_description,
      String.data_append, List.append_assoc]
    exact isInfix_cons_append _ (isInfix_cons_append _ (isInfix_cons_append _
      (isInfix_refl_append _ _)))
  · simp only [StrContains, sentiment_task, sentiment_task_description,
      String.data_append, List.append_assoc]
    exact isInfix_cons_append _ (isInfix_refl_append _ _)
  · simp only [StrContains, sentiment_task, sentiment_task_description,
      String.data_append, List.append_assoc]
    exact isInfix_cons_append _ (isInfix_cons_append _ (isInfix_cons_append _
      (isInfix_refl_append _ _)))
  · simp only [StrContains, report_generation, report_generation_description]
    split
    · simp only [String.data_append, List.append_assoc]
      exact isInfix_cons_append _ (isInfix_refl_append _ _)
    · simp only [String.data_append, List.append_assoc]
      exact isInfix_cons_append _ (isInfix_refl_append _ _)

/-! ## C3 — empty or missing market data stops the run before the pipeline -/

/-- C3: when the fetched market-data response has no `data` records —
`.get("data")` yields `None`, or a falsy (empty) value — the handler shows
`'No market data returned from API.'` and stops; this holds for *every*
possible kickoff outcome (the pipeline result is irrelevant, i.e. the Crew
is never consulted) and no rendered report state is produced. -/
theorem C3_empty_market_data (md : Json) (kick : Except String String) (note today : String)
    (h : pyGetMethod md "data" = .ok none
      ∨ ∃ d, pyGetMethod md "data" = .ok (some d) ∧ d.truthy = false) :
    handleMarketData md kick note today
      = HandlerOutcome.stoppedWithError "No market data returned from API."
    ∧ ∀ r, handleMarketData md kick note today ≠ HandlerOutcome.rendered r := by
  have hmain : handleMarketData md kick note today
      = HandlerOutcome.stoppedWithError "No market data returned from API." := by
    unfold handleMarketData
    rcases h with h | ⟨d, hd, ht⟩
    · rw [h]
    · rw [hd]
      simp [ht]
  exact ⟨hmain, by rw [hmain]; intro r; simp⟩

/-- C3 witness: a concrete dict with no `data` key. -/
theorem C3_witness :
    handleMarketData (Json.obj []) (Except.ok "AI") "" "March 04, 2026"
      = HandlerOutcome.stoppedWithError "No market data returned from API." :=
  (C3_empty_market_data (Json.obj []) (Except.ok "AI") "" "March 04, 2026" (Or.inl rfl)).1

/-! ## C5 — the market-data request ignores the coin_count parameter -/

/-- C5 counterexample.  The claim says the request asks for the top N coins
where N is the caller's `coin_count`; for the valid value `coin_count = 5`
the request's `limit` parameter is the hard-coded `"20"`, not `"5"`. -/
theorem C5_counterexample :
    paramLookup marketParams "limit" = some "20" ∧ toString (5 : Nat) ≠ "20" :=
  ⟨rfl, by decide⟩

/-- C5 amended: the request always asks for the top *20* coins sorted by
descending market capitalization in USD; the `limit` is fixed at `"20"`
irrespective of the `coin_count` parameter (so it differs from every valid
`coin_count` other than 20 itself). -/
theorem C5_amended (n : Nat) (h5 : 5 ≤ n) (h20 : n < 20) :
    paramLookup marketParams "limit" = some "20"
    ∧ paramLookup marketParams "convert" = some "USD"
    ∧ paramLookup marketParams "sort" = some "market_cap"
    ∧ paramLookup marketParams "sort_dir" = some "desc"
    ∧ paramLookup marketParams "limit" ≠ some (toString n) := by
  refine ⟨rfl, rfl, rfl, rfl, ?_⟩
  have hne : ∀ m, m < 20 → 5 ≤ m → toString m ≠ "20" := by decide
  intro heq
  have h0 : paramLookup marketParams "limit" = some "20" := rfl
  rw [h0] at heq
  injection heq with h2
  exact hne n h20 h5 h2.symm

/-- C5 witness: coin_count 7 is valid and the request limit is not "7". -/
theorem C5_witness : paramLookup marketParams "limit" ≠ some (toString (7 : Nat)) :=
  (C5_amended 7 (by decide) (by decide)).2.2.2.2

/-! ## C6 — derived metrics are scaled by 1e9, not plain sums -/

/-- C6 counterexample.  The claim says `total_market_cap` equals the sum of
the `market_cap` fields — two coins with caps 100 and 50 should give 150.
The code divides the sum by 1e9, so those two coins give `150 / 1e9`. -/
theorem C6_counterexample : total_market_cap twoCoinRows ≠ 150 := by
  norm_num [total_market_cap, twoCoinRows]

/-- C6 amended: the metrics are deterministic pure functions of the rows,
with `total_market_cap` and `total_volume` equal to the column sums
*divided by 1e9* (billions) and `avg_change` the plain arithmetic mean:
caps [100, 50] give `150/1e9 = 3/20000000`, volumes [10, 20] give
`3/100000000`, changes [2, -4] give mean −1. -/
theorem C6_amended :
    total_market_cap twoCoinRows = 3 / 20000000
    ∧ total_volume twoCoinRows = 3 / 100000000
    ∧ avg_change twoCoinRows = -1
    ∧ ∀ df : List CoinRow, df ≠ [] →
        avg_change df * (df.length : ℚ) = (df.map CoinRow.change_24h).sum
        ∧ total_market_cap df * 1000000000 = (df.map CoinRow.market_cap).sum
        ∧ total_volume df * 1000000000 = (df.map CoinRow.volume_24h).sum := by
  refine ⟨by norm_num [total_market_cap, twoCoinRows],
    by norm_num [total_volume, twoCoinRows],
    by norm_num [avg_change, twoCoinRows], ?_⟩
  intro df hdf
  have hlen : ((df.length : ℚ)) ≠ 0 := by
    have : df.length ≠ 0 := by simpa using hdf
    exact_mod_cast this
  refine ⟨?_, ?_, ?_⟩
  · unfold avg_change
    exact div_mul_cancel₀ _ hlen
  · unfold total_market_cap
    exact div_mul_cancel₀ _ (by norm_num)
  · unfold total_volume
    exact div_mul_cancel₀ _ (by norm_num)

/-- C6 witness: the mean-times-count identity at the two example rows. -/
theorem C6_witness :
    avg_change twoCoinRows * ((twoCoinRows.length : ℕ) : ℚ)
      = (twoCoinRows.map CoinRow.change_24h).sum :=
  ((C6_amended).2.2.2 twoCoinRows (by simp [twoCoinRows])).1

/-! ## C7 — missing sentiment data degrades to the fixed fallback -/

/-- C7: when the sentiment fetch yields no usable data (the empty dict),
the report text is exactly the fixed fallback string, the sentiment tab
contains no gauge element (and no error box), and no exception escapes:
both the generator and the tab render return successfully. -/
theorem C7_sentiment_fallback (net : HttpOutcome)
    (h : fetch_live_sentiment_data net = Json.obj []) :
    generate_sentiment_analysis net
      = .ok (Json.obj [], "Live sentiment data is currently unavailable.")
    ∧ tab3Render net = .ok [UIElement.subheader "Market Sentiment Analysis",
        UIElement.markdown "### Sentiment Analysis Report",
        UIElement.markdown "Live sentiment data is currently unavailable."]
    ∧ ∀ l q, tab3Render net = .ok l → UIElement.gauge q ∉ l := by
  have hg : generate_sentiment_analysis net
      = .ok (Json.obj [], "Live sentiment data is currently unavailable.") := by
    unfold generate_sentiment_analysis
    rw [h]
    rfl
  have ht : tab3Render net = .ok [UIElement.subheader "Market Sentiment Analysis",
      UIElement.markdown "### Sentiment Analysis Report",
      UIElement.markdown "Live sentiment data is currently unavailable."] := by
    unfold tab3Render
    rw [hg]
    rfl
  refine ⟨hg, ht, ?_⟩
  intro l q hl
  rw [ht] at hl
  injection hl with hl2
  rw [← hl2]
  simp

/-- C7 witness: the transport-error outcome yields the empty dict and hence
  the fallback report. -/
theorem C7_witness :
    generate_sentiment_analysis .transportError
      = .ok (Json.obj [], "Live sentiment data is currently unavailable.") :=
  (C7_sentiment_fallback .transportError rfl).1

/-! ## C8 — the final document and the role of the free-text note -/

/-- C8 counterexample.  The claim says the final composed document is built
from the orchestrator output, the three metrics, the timestamp *and the
optional free-text note*.  Two handler runs on the same market data,
kickoff output and date, differing only in the note ("UNIQUENOTE77" vs
none), render *identical* outcomes — the composition at lines 289–302
never reads the note. -/
theorem C8_counterexample :
    handleMarketData exampleMarketJson (Except.ok "AI-SYNTHESIS") "UNIQUENOTE77" "March 04, 2026"
      = handleMarketData exampleMarketJson (Except.ok "AI-SYNTHESIS") "" "March 04, 2026"
    ∧ (handleMarketData exampleMarketJson (Except.ok "AI-SYNTHESIS") "UNIQUENOTE77"
        "March 04, 2026").isRendered = true :=
  ⟨rfl, rfl⟩

/-- C8 amended: the final document is built from the orchestrator's output
text, the three derived metrics and the run timestamp, structured as the
quantitative summary section, then the qualitative synthesis text, then
the fixed recommendation footer.  The optional free-text note is *not* an
input of the composition (the rendered outcome is independent of it); the
note is instead appended to the report-generation Task's description
(line 170–171), through which alone it can influence the orchestrator's
output. -/
theorem C8_amended (ai : String) (tmc tv ac : ℚ) (today note n₁ n₂ : String)
    (md : Json) (kick : Except String String) (hnote : note ≠ "") :
    final_report ai tmc tv ac today
      = ("### Executive Summary for " ++ today ++ "\n\n" ++ data_summary tmc tv ac today
          ++ "**Key AI Insights:**\n") ++ ai ++ ("\n\n" ++ recommendation_footer)
    ∧ StrContains (data_summary tmc tv ac today) today
    ∧ StrContains (data_summary tmc tv ac today) (fmt2 tmc)
    ∧ StrContains (data_summary tmc tv ac today) (fmt2 tv)
    ∧ StrContains (data_summary tmc tv ac today) (fmt2 ac)
    ∧ handleMarketData md kick n₁ today = handleMarketData md kick n₂ today
    ∧ StrContains (report_generation_description today note) note := by
  refine ⟨by simp [final_report, String.append_assoc], ?_, ?_, ?_, ?_, rfl, ?_⟩
  · simp only [StrContains, data_summary, String.data_append, List.append_assoc]
    exact isInfix_cons_append _ (isInfix_refl_append _ _)
  · simp only [StrContains, data_summary, String.data_append, List.append_assoc]
    exact isInfix_cons_append _ (isInfix_cons_append _ (isInfix_cons_append _
      (isInfix_refl_append _ _)))
  · simp only [StrContains, data_summary, String.data_append, List.append_assoc]
    exact isInfix_cons_append _ (isInfix_cons_append _ (isInfix_cons_append _
      (isInfix_cons_append _ (isInfix_cons_append _ (isInfix_refl_append _ _)))))
  · simp only [StrContains, data_summary, String.data_append, List.append_assoc]
    exact isInfix_cons_append _ (isInfix_cons_append _ (isInfix_cons_append _
      (isInfix_cons_append _ (isInfix_cons_append _ (isInfix_cons_append _
        (isInfix_cons_append _ (isInfix_refl_append _ _)))))))
  · unfold report_generation_description
    rw [if_neg hnote]
    simp only [StrContains, String.data_append, List.append_assoc]
    exact isInfix_cons_append _ (isInfix_cons_append _ (isInfix_cons_append _
      (isInfix_cons_append _ (isInfix_self _))))

/-- C8 witness: a non-empty note lands verbatim in the report-generation
  task description. -/
theorem C8_witness :
    StrContains (report_generation_description "March 04, 2026" "watch BTC closely")
      "watch BTC closely" :=
  (C8_amended "AI" 1 2 3 "March 04, 2026" "watch BTC closely" "" "" (Json.obj [])
    (Except.ok "x") (by decide)).2.2.2.2.2.2

/-! ## C10 — total behaviour of fetch_live_sentiment_data -/

theorem assocLookup_any_eq_true {kvs : List (String × Json)} {k : String} {v : Json}
    (h : assocLookup kvs k = some v) : (kvs.any fun p => decide (p.1 = k)) = true := by
  induction kvs with
  | nil => cases h
  | cons p rest ih =>
    unfold assocLookup at h
    by_cases hp : p.1 = k
    · simp only [List.any_cons, hp, decide_True, Bool.true_or]
    · rw [if_neg hp] at h
      simp only [List.any_cons, hp, decide_False, Bool.false_or]
      exact ih h

theorem assocLookup_any_eq_false {kvs : List (String × Json)} {k : String}
    (h : assocLookup kvs k = none) : (kvs.any fun p => decide (p.1 = k)) = false := by
  induction kvs with
  | nil => rfl
  | cons p rest ih =>
    unfold assocLookup at h
    by_cases hp : p.1 = k
    · rw [if_pos hp] at h
      cases h
    · rw [if_neg hp] at h
      simp only [List.any_cons, hp, decide_False, Bool.false_or]
      exact ih h

theorem pyContains_obj_true {kvs : List (String × Json)} {k : String} {v : Json}
    (h : assocLookup kvs k = some v) : pyContains (.obj kvs) k = .ok true := by
  show Except.ok (kvs.any fun p => decide (p.1 = k)) = Except.ok true
  rw [assocLookup_any_eq_true h]

theorem pyContains_obj_false {kvs : List (String × Json)} {k : String}
    (h : assocLookup kvs k = none) : pyContains (.obj kvs) k = .ok false := by
  show Except.ok (kvs.any fun p => decide (p.1 = k)) = Except.ok false
  rw [assocLookup_any_eq_false h]

/-- Core behaviour of the sentiment fetch on a dict body whose `data` key
is present: exactly the source's `if "data" in data and data["data"]`
branch followed by the guarded `data["data"][0]`. -/
theorem fetch_sentiment_obj_some {kvs : List (String × Json)} {d : Json}
    (h : assocLookup kvs "data" = some d) :
    fetch_live_sentiment_data (.ok (.obj kvs))
      = if d.truthy then
          (match pyIndex0 d with | .ok x => x | .error _ => Json.obj [])
        else Json.obj [] := by
  have h1 : pyContains (.obj kvs) "data" = .ok true := pyContains_obj_true h
  have h2 : pySubscriptS (.obj kvs) "data" = .ok d := by
    show (match assocLookup kvs "data" with
          | some v => Except.ok v
          | none => Except.error PyExn.keyError) = .ok d
    rw [h]
  simp [fetch_live_sentiment_data, requestsGetJson, h1, h2]

/-- C10 counterexample.  The claim says the function returns `{}` for
every outcome except a non-empty `data` *list*, whose first record it
returns.  A response whose `data` field is the non-empty *string* "ab" is
truthy, and `data["data"][0]` is the one-character string "a": the
function returns `"a"`, which is neither `{}` nor the first record of any
list. -/
theorem C10_counterexample :
    fetch_live_sentiment_data (HttpOutcome.ok (Json.obj [("data", Json.str "ab")]))
      = Json.str "a"
    ∧ Json.str "a" ≠ Json.obj []
    ∧ ((jsonLookup (Json.obj [("data", Json.str "ab")]) "data").getD Json.null).isArr
        = false :=
  ⟨rfl, fun h => Json.noConfusion h, rfl⟩

/-- C10 amended: the function never raises (it is total), returns `{}` on
transport errors, non-2xx statuses, malformed JSON, non-dict bodies,
missing `data` keys, falsy `data` values, and truthy `data` values that
are dicts, numbers, booleans or `null`; it returns the first element when
`data` is a non-empty list; and — the one exception to the claim — it
returns the first *character* (as a one-character string) when `data` is a
non-empty string. -/
theorem C10_amended :
    fetch_live_sentiment_data .transportError = Json.obj []
    ∧ fetch_live_sentiment_data .httpError = Json.obj []
    ∧ fetch_live_sentiment_data .badJson = Json.obj []
    ∧ (∀ j : Json, j.isObj = false → fetch_live_sentiment_data (.ok j) = Json.obj [])
    ∧ (∀ kvs, assocLookup kvs "data" = none →
        fetch_live_sentiment_data (.ok (.obj kvs)) = Json.obj [])
    ∧ (∀ kvs x xs, assocLookup kvs "data" = some (.arr (x :: xs)) →
        fetch_live_sentiment_data (.ok (.obj kvs)) = x)
    ∧ (∀ kvs c cs, assocLookup kvs "data" = some (.str (String.mk (c :: cs))) →
        fetch_live_sentiment_data (.ok (.obj kvs)) = .str (String.mk [c]))
    ∧ (∀ kvs d, assocLookup kvs "data" = some d → d.truthy = false →
        fetch_live_sentiment_data (.ok (.obj kvs)) = Json.obj [])
    ∧ (∀ kvs kvs2, assocLookup kvs "data" = some (.obj kvs2) →
        fetch_live_sentiment_data (.ok (.obj kvs)) = Json.obj [])
    ∧ (∀ kvs q, assocLookup kvs "data" = some (.num q) →
        fetch_live_sentiment_data (.ok (.obj kvs)) = Json.obj [])
    ∧ (∀ kvs b, assocLookup kvs "data" = some (.bool b) →
        fetch_live_sentiment_data (.ok (.obj kvs)) = Json.obj [])
    ∧ (∀ kvs, assocLookup kvs "data" = some .null →
        fetch_live_sentiment_data (.ok (.obj kvs)) = Json.obj []) := by
  refine ⟨rfl, rfl, rfl, ?_, ?_, ?_, ?_, ?_, ?_, ?_, ?_, ?_⟩
  · intro j hobj
    cases j with
    | null => rfl
    | bool b => rfl
    | num q => rfl
    | str s =>
      by_cases hc : StrContains s "data"
      · simp [fetch_live_sentiment_data, requestsGetJson, pyContains, pySubscriptS, hc]
      · simp [fetch_live_sentiment_data, requestsGetJson, pyContains, hc]
    | arr xs =>
      cases hb : xs.any (fun x => match x with | .str s => decide (s = "data") | _ => false) with
      | true => simp [fetch_live_sentiment_data, requestsGetJson, pyContains, pySubscriptS, hb]
      | false => simp [fetch_live_sentiment_data, requestsGetJson, pyContains, hb]
    | obj kvs => simp [Json.isObj] at hobj
  · intro kvs h
    simp [fetch_live_sentiment_data, requestsGetJson, pyContains_obj_false h]
  · intro kvs x xs h
    rw [fetch_sentiment_obj_some h]
    simp [Json.truthy, pyIndex0]
  · intro kvs c cs h
    rw [fetch_sentiment_obj_some h]
    simp [Json.truthy, pyIndex0]
  · intro kvs d h ht
    rw [fetch_sentiment_obj_some h, ht]
    simp
  · intro kvs kvs2 h
    rw [fetch_sentiment_obj_some h]
    by_cases ht : (Json.obj kvs2).truthy
    · simp [ht, pyIndex0]
    · simp [ht]
  · intro kvs q h
    rw [fetch_sentiment_obj_some h]
    by_cases ht : (Json.num q).truthy
    · simp [ht, pyIndex0]
    · simp [ht]
  · intro kvs b h
    rw [fetch_sentiment_obj_some h]
    by_cases ht : (Json.bool b).truthy
    · simp [ht, pyIndex0]
    · simp [ht]
  · intro kvs h
    rw [fetch_sentiment_obj_some h]
    simp [Json.truthy]

/-- C10 witness: a well-formed body with a one-record `data` list yields
  that record. -/
theorem C10_witness :
    fetch_live_sentiment_data
      (.ok (Json.obj [("data", Json.arr [Json.obj [("value", Json.str "54")]])]))
      = Json.obj [("value", Json.str "54")] :=
  C10_amended.2.2.2.2.2.1 [("data", Json.arr [Json.obj [("value", Json.str "54")]])]
    (Json.obj [("value", Json.str "54")]) [] rfl

/-! ## Orchestrator lemmas (spec-modelled Crew execution) -/

theorem crewRunFrom_context_prefix (llm : Task → List String → Except String String) :
    ∀ (tasks : List Task) (acc : List String) (i : Nat) (c : List String),
      (crewRunFrom llm tasks acc).contexts.get? i = some c →
      c = acc ++ (crewRunFrom llm tasks acc).outputs.take i := by
  intro tasks
  induction tasks with
  | nil =>
    intro acc i c hc
    simp [crewRunFrom] at hc
  | cons t rest ih =>
    intro acc i c hc
    cases hllm : llm t acc with
    | error e =>
      simp only [crewRunFrom, hllm] at hc ⊢
      cases i with
      | zero =>
        simp at hc
        simp [hc.symm]
      | succ n => simp at hc
    | ok out =>
      simp only [crewRunFrom, hllm] at hc ⊢
      cases i with
      | zero =>
        simp at hc
        simp [hc.symm]
      | succ n =>
        simp only [List.get?_cons_succ] at hc
        rw [List.take_succ_cons, List.append_cons, List.append_assoc]
        simpa using ih (acc ++ [out]) n c hc

theorem crewRunFrom_complete_len (llm : Task → List String → Except String String) :
    ∀ (tasks : List Task) (acc : List String),
      (crewRunFrom llm tasks acc).failed = false →
      (crewRunFrom llm tasks acc).outputs.length = tasks.length
      ∧ (crewRunFrom llm tasks acc).contexts.length = tasks.length := by
  intro tasks
  induction tasks with
  | nil => intro acc _; simp [crewRunFrom]
  | cons t rest ih =>
    intro acc hf
    cases hllm : llm t acc with
    | error e => simp [crewRunFrom, hllm] at hf
    | ok out =>
      simp only [crewRunFrom, hllm] at hf ⊢
      have := ih (acc ++ [out]) hf
      simp [this.1, this.2]

theorem crewRunFrom_fail (llm : Task → List String → Except String String) :
    ∀ (outs : List String) (tasks : List Task) (acc : List String) (e : String),
      (∀ j, j < outs.length → ∃ t o, tasks.get? j = some t ∧ outs.get? j = some o
          ∧ llm t (acc ++ outs.take j) = .ok o) →
      (∃ t, tasks.get? outs.length = some t ∧ llm t (acc ++ outs) = .error e) →
      (crewRunFrom llm tasks acc).failed = true
      ∧ (crewRunFrom llm tasks acc).outputs = outs
      ∧ (crewRunFrom llm tasks acc).contexts.length = outs.length + 1 := by
  intro outs
  induction outs with
  | nil =>
    intro tasks acc e _ hfail
    obtain ⟨t, ht, hllm⟩ := hfail
    cases tasks with
    | nil => cases ht
    | cons t0 rest =>
      simp only [List.length_nil, List.get?_cons_zero] at ht
      injection ht with ht0
      rw [← ht0] at hllm
      have hl : llm t0 acc = .error e := by simpa using hllm
      simp [crewRunFrom, hl]
  | cons o outs' ih =>
    intro tasks acc e hsucc hfail
    cases tasks with
    | nil =>
      obtain ⟨t, ht, _⟩ := hfail
      cases ht
    | cons t0 rest =>
      obtain ⟨t', o', ht', ho', hllm0⟩ := hsucc 0 (by simp)
      simp only [List.get?_cons_zero] at ht' ho'
      injection ht' with ht0
      injection ho' with ho0
      rw [← ht0, ← ho0] at hllm0
      have hl0 : llm t0 acc = .ok o := by simpa using hllm0
      have hrest := ih rest (acc ++ [o]) e
        (by
          intro j hj
          obtain ⟨t, o2, htj, hoj, hl⟩ := hsucc (j + 1) (by simpa using Nat.succ_lt_succ hj)
          refine ⟨t, o2, by simpa using htj, by simpa using hoj, ?_⟩
          rw [List.take_succ_cons, List.append_cons, List.append_assoc] at hl
          simpa using hl)
        (by
          obtain ⟨t, ht, hl⟩ := hfail
          refine ⟨t, by simpa using ht, ?_⟩
          rw [List.append_cons, List.append_assoc] at hl
          simpa using hl)
      have hstep : crewRunFrom llm (t0 :: rest) acc =
          { contexts := acc :: (crewRunFrom llm rest (acc ++ [o])).contexts,
            outputs := o :: (crewRunFrom llm rest (acc ++ [o])).outputs,
            failed := (crewRunFrom llm rest (acc ++ [o])).failed } := by
        simp [crewRunFrom, hl0]
      rw [hstep]
      refine ⟨hrest.1, ?_, ?_⟩
      · simp [hrest.2.1]
      · simp [hrest.2.2]

/-! ## C9 — in-order execution, prefix contexts, full context on success -/

/-- C9 (spec-modelled Crew execution): during any run the prompt context
handed to the task at position `i` is exactly the list of outputs of tasks
`0..i-1` (the `i`-prefix of the final outputs) — never the output of task
`i` or any later task; and after a successful (non-failed) run the number
of recorded contexts and outputs both equal the number of tasks. -/
theorem C9_context_prefix_and_length (llm : Task → List String → Except String String)
    (tasks : List Task) :
    (∀ i c, (crewRunFrom llm tasks []).contexts.get? i = some c →
        c = (crewRunFrom llm tasks []).outputs.take i)
    ∧ ((crewRunFrom llm tasks []).failed = false →
        (crewRunFrom llm tasks []).outputs.length = tasks.length
        ∧ (crewRunFrom llm tasks []).contexts.length = tasks.length) := by
  constructor
  · intro i c hc
    simpa using crewRunFrom_context_prefix llm tasks [] i c hc
  · exact crewRunFrom_complete_len llm tasks []

/-- C9 witness: with an always-succeeding model on the concrete 4-task
pipeline, the third task's context is the 2-prefix of the outputs and the
run records one output per task. -/
theorem C9_witness :
    (crewRunFrom llmAllOk tasks4 []).contexts.get? 2
      = some ((crewRunFrom llmAllOk tasks4 []).outputs.take 2)
    ∧ (crewRunFrom llmAllOk tasks4 []).outputs.length = tasks4.length := by
  have hmain := C9_context_prefix_and_length llmAllOk tasks4
  constructor
  · cases hc : (crewRunFrom llmAllOk tasks4 []).contexts.get? 2 with
    | none => exact absurd hc (by decide)
    | some c => rw [hmain.1 2 c hc]
  · exact (hmain.2 (by decide)).1

/-! ## C4 — a generation failure aborts the run -/

/-- C4 (spec-modelled Crew execution, plus the source's handler): if the
language model succeeds on the first `k = outs.length` tasks (producing
`outs`) and fails on task `k`, then the run status is failed, exactly
`k + 1` tasks were started (tasks `k+1..n` never execute), no aggregate
result is produced, and — back in `app.py` — the handler catches the
kickoff exception, surfaces `"Error during AI analysis: ..."` to the user
and stops before the final-report composition. -/
theorem C4_generation_failure (llm : Task → List String → Except String String)
    (tasks : List Task) (outs : List String) (e : String)
    (hsucc : ∀ j, j < outs.length → ∃ t o, tasks.get? j = some t ∧ outs.get? j = some o
        ∧ llm t (outs.take j) = .ok o)
    (hfail : ∃ t, tasks.get? outs.length = some t ∧ llm t outs = .error e) :
    crewStatus llm tasks = RunStatus.failed
    ∧ (crewRunFrom llm tasks []).contexts.length = outs.length + 1
    ∧ (crewRunFrom llm tasks []).outputs = outs
    ∧ crewResult llm tasks = none
    ∧ (∀ note today, handleMarketData exampleMarketJson (Except.error e) note today
        = HandlerOutcome.stoppedWithError ("Error during AI analysis: " ++ e)) := by
  have hs : ∀ j, j < outs.length → ∃ t o, tasks.get? j = some t ∧ outs.get? j = some o
      ∧ llm t ([] ++ outs.take j) = .ok o := by simpa using hsucc
  have hf : ∃ t, tasks.get? outs.length = some t ∧ llm t ([] ++ outs) = .error e := by
    simpa using hfail
  have h := crewRunFrom_fail llm outs tasks [] e hs hf
  refine ⟨?_, h.2.2, h.2.1, ?_, ?_⟩
  · unfold crewStatus
    simp [h.1]
  · unfold crewResult
    simp [h.1]
  · intro note today
    rfl

/-- C4 witness: on the concrete 4-task pipeline with a model that fails on
the sentiment task after two successes, the run fails, produces no result,
and the handler aborts with the surfaced error. -/
theorem C4_witness :
    crewStatus llmFailSentiment tasks4 = RunStatus.failed
    ∧ crewResult llmFailSentiment tasks4 = none
    ∧ handleMarketData exampleMarketJson (Except.error "boom") "" "March 04, 2026"
        = HandlerOutcome.stoppedWithError ("Error during AI analysis: " ++ "boom") := by
  have h := C4_generation_failure llmFailSentiment tasks4 ["ok", "ok"] "boom"
    (by
      intro j hj
      have hj2 : j < 2 := by simpa using hj
      interval_cases j
      · exact ⟨market_analysis "March 04, 2026" "24H" 10, "ok", rfl, rfl, rfl⟩
      · exact ⟨technical_analysis "March 04, 2026" "24H" 10, "ok", rfl, rfl, rfl⟩)
    ⟨sentiment_task "March 04, 2026" "24H", rfl, rfl⟩
  exact ⟨h.1, h.2.2.2.1, h.2.2.2.2 "" "March 04, 2026"⟩

end CryptoApp
